import Mathlib

/-!
# TileForge focus-navigation core: shallow embedding and verification

This file embeds the focus-navigation and entity-lifecycle subsystem of
`src/main.js` (classes `InputSystem`, `GameObject`/`TileEntity`, `TileForgeApp`)
and proves or refutes the specification claims about it.

Modelling conventions:
- DOM measurements (`container.offsetWidth`, `element.offsetWidth`) are integer
  pixel values passed as explicit inputs (`containerW`, `Entity.elemWidth`).
- `focusedIndex` is an `Int`; the value `-1` is the "no focus" state, exactly as
  in the source (`this.focusedIndex = -1`).
- The visual side effect of `InputSystem.focus` (adding the `tf-focused` class
  to the target element and calling `scrollIntoView` on it) is recorded as an
  emitted event: the returned `List Int` holds the index of each element that
  received the visual focus update during the call.  Every `TileEntity` owns a
  DOM element (constructed in its constructor), so the source guard
  `if (target && target.element)` holds exactly when the index is in range.
- The source file contains merge-duplicated fragments; where a method is
  defined twice in a class body (`clear`), JavaScript semantics make the later
  definition the effective one, and the earlier one is embedded separately
  under a distinct name for comparison.
-/

namespace TileForge

/-- An entity handle as the navigation core sees it: `GameObject.id` plus the
measured pixel width of its rendered element (`element.offsetWidth`). -/
structure Entity where
  id : String
  elemWidth : Int
deriving DecidableEq

/-- The mutable fields of `InputSystem` (src/main.js lines 203-213):
`focusedIndex`, `items`, `cols`, `active`. -/
structure InputState where
  focusedIndex : Int
  items : List Entity
  cols : Int
  active : Bool
deriving DecidableEq

/-- `InputSystem` constructor state: `focusedIndex = -1`, `items = []`,
`cols = 1`, `active = true` (src/main.js lines 204-209). -/
def initInput : InputState := ⟨-1, [], 1, true⟩

/-- The column computation of `InputSystem.calcMetrics` (src/main.js lines
230-235) as a function of the measured grid width and first-item width:
`if (!itemW || itemW <= 0) cols = 1; else { cols = Math.floor(gridW / (itemW + 16));
if (!isFinite(cols) || cols < 1) cols = 1; }`.  Over exact integers `!itemW`
means `itemW = 0`, `Math.floor` of the quotient is floor division `Int.fdiv`
(the divisor `itemW + 16` is positive in the else-branch, so the quotient is
always finite and the `!isFinite` test can never fire). -/
def calcCols (gridW itemW : Int) : Int :=
  if itemW = 0 ∨ itemW ≤ 0 then 1
  else
    let cols := Int.fdiv gridW (itemW + 16)
    if cols < 1 then 1 else cols

/-- `InputSystem.calcMetrics` (src/main.js lines 226-236): early-returns when
`items` is empty, otherwise recomputes `cols` from the container width and the
first item's element width. -/
def calcMetrics (s : InputState) (containerW : Int) : InputState :=
  match s.items with
  | [] => s
  | item0 :: _ => { s with cols := calcCols containerW item0.elemWidth }

/-- `InputSystem.focus` (src/main.js lines 238-261): clamps the requested index
low then high, stores it in `focusedIndex`, and when the target item exists
(index in range; every `TileEntity` has an element) performs the visual focus
update on it — recorded here as the single emitted event.  The merge-duplicated
`addClass` lines in the source re-add the same class, which is idempotent. -/
def focus (s : InputState) (index : Int) : InputState × List Int :=
  let index1 := if index < 0 then 0 else index
  let index2 :=
    if index1 ≥ (s.items.length : Int) then (s.items.length : Int) - 1 else index1
  let s2 := { s with focusedIndex := index2 }
  if 0 ≤ index2 ∧ index2 < (s.items.length : Int) then (s2, [index2]) else (s2, [])

/-- `InputSystem.registerItems` (src/main.js lines 215-224): stores the new
item list, recomputes metrics, then either resets focus to `0` and calls
`focus(0)` (non-empty) or sets `focusedIndex = -1` (empty). -/
def registerItems (s : InputState) (items : List Entity) (containerW : Int) :
    InputState × List Int :=
  let s1 := calcMetrics { s with items := items } containerW
  if 0 < s1.items.length then
    focus { s1 with focusedIndex := 0 } 0
  else
    ({ s1 with focusedIndex := -1 }, [])

/-- The keys `InputSystem.handleKey` distinguishes. -/
inductive Key where
  | arrowRight
  | arrowLeft
  | arrowDown
  | arrowUp
  | enter
  | space
  | other
deriving DecidableEq

/-- Whether a key is one of the four directional arrows. -/
def Key.isArrow : Key → Bool
  | .arrowRight => true
  | .arrowLeft => true
  | .arrowDown => true
  | .arrowUp => true
  | _ => false

/-- `InputSystem.handleKey` (src/main.js lines 263-288): returns early when
inactive; otherwise recomputes metrics and dispatches on the key.  Arrows call
`focus` with the current index shifted by `±1` or `±cols`; Enter/Space click the
focused element (no navigator state change); other keys are ignored. -/
def handleKey (s : InputState) (key : Key) (containerW : Int) :
    InputState × List Int :=
  if s.active then
    let s1 := calcMetrics s containerW
    match key with
    | Key.arrowRight => focus s1 (s1.focusedIndex + 1)
    | Key.arrowLeft => focus s1 (s1.focusedIndex - 1)
    | Key.arrowDown => focus s1 (s1.focusedIndex + s1.cols)
    | Key.arrowUp => focus s1 (s1.focusedIndex - s1.cols)
    | _ => (s1, [])
  else (s, [])

/-- The application state of `TileForgeApp`: the `entities` array together with
the `InputSystem` state.  In the source, `registerItems(this.entities)` makes
`input.items` an alias of `entities`; here the alias is re-established by each
operation, exactly as the code does. -/
structure AppState where
  entities : List Entity
  input : InputState
deriving DecidableEq

/-- `TileForgeApp` constructor state: no entities, fresh `InputSystem`. -/
def initApp : AppState := ⟨[], initInput⟩

/-- `TileForgeApp.addEntity` (src/main.js lines 340-346): constructs the
entity, pushes it onto `entities`, appends its element to the grid, calls
`input.registerItems(entities)`, and returns the entity.  `newId` is the
resolved `GameObject` id (`props.id || random`), `elemW` the element's measured
width.  Returns the new app state, the returned handle, and the focus events
emitted by `registerItems`. -/
def addEntity (a : AppState) (newId : String) (elemW : Int) (containerW : Int) :
    AppState × Entity × List Int :=
  let ent : Entity := ⟨newId, elemW⟩
  let entities := a.entities ++ [ent]
  let res := registerItems a.input entities containerW
  (⟨entities, res.1⟩, ent, res.2)

/-- The effective `TileForgeApp.clear` (src/main.js lines 355-359): the class
body defines `clear` twice, and in JavaScript the later definition shadows the
earlier, so this one — which does NOT call `ent.destroy()` — is the method that
runs.  It empties the grid markup, resets `entities`, and calls
`registerItems([])`.  The middle component of the result lists the ids on which
`destroy()` was invoked (none). -/
def clear (a : AppState) (containerW : Int) :
    AppState × List String × List Int :=
  let res := registerItems a.input [] containerW
  (⟨[], res.1⟩, [], res.2)

/-- The earlier, shadowed `clear` definition (src/main.js lines 347-353), dead
code under JavaScript method-shadowing: it first runs
`this.entities.forEach(ent => ent.destroy())` — recorded here as the list of
ids whose `destroy()` is invoked — before emptying the collection. -/
def clearShadowed (a : AppState) (containerW : Int) :
    AppState × List String × List Int :=
  let destroyCalls := a.entities.map Entity.id
  let res := registerItems a.input [] containerW
  (⟨[], res.1⟩, destroyCalls, res.2)

/-- A key press at the application level: the window `keydown` listener invokes
`input.handleKey`; `entities` is untouched. -/
def appKey (a : AppState) (key : Key) (containerW : Int) : AppState × List Int :=
  let res := handleKey a.input key containerW
  (⟨a.entities, res.1⟩, res.2)

/-- The navigator invariant of the spec: `focusedIndex` is `-1` (none) exactly
when the collection is empty, and otherwise a valid index
`0 ≤ focusedIndex < items.length`. -/
def NavInvariant (s : InputState) : Prop :=
  (s.focusedIndex = -1 ↔ s.items = []) ∧
  (s.items ≠ [] → 0 ≤ s.focusedIndex ∧ s.focusedIndex < (s.items.length : Int))

instance instDecNavInvariant (s : InputState) : Decidable (NavInvariant s) := by
  unfold NavInvariant
  exact inferInstance

/-- The application invariant: the navigator invariant holds and
`input.items` is (an alias of) `entities`. -/
def AppInvariant (a : AppState) : Prop :=
  NavInvariant a.input ∧ a.input.items = a.entities

instance instDecAppInvariant (a : AppState) : Decidable (AppInvariant a) := by
  unfold AppInvariant
  exact inferInstance

/-- The spec contract of `GridMetrics.recompute(containerWidthPx,
sampleItemWidthPx, gapPx)` (spec section 4.1), stated with the gap as an
explicit argument for comparison with the code's `calcCols`, whose gap is the
fixed constant `16`: non-positive item width gives `1`, otherwise the floor of
the quotient clamped to a minimum of `1`.  (The spec's "not finite or
unavailable" widths have no exact-integer representative.) -/
def recomputeSpec (containerW itemW gap : Int) : Int :=
  if itemW ≤ 0 then 1
  else max 1 (Int.fdiv containerW (itemW + gap))

/-! ## Concrete sample states for witnesses and counterexamples -/

/-- A concrete entity with id `"a"` and a measured element width of 200px. -/
def entA : Entity := ⟨"a", 200⟩

/-- A concrete entity with id `"b"` and a measured element width of 200px. -/
def entB : Entity := ⟨"b", 200⟩

/-- A concrete entity with id `"c"` and a measured element width of 200px. -/
def entC : Entity := ⟨"c", 200⟩

/-- A concrete navigator state focused on index 1 of a three-item collection. -/
def sampleFocused : InputState := ⟨1, [entA, entB, entC], 1, true⟩

/-- The app state reached from the constructor state by adding one entity with
id `"a"` (container width 1000px). -/
def sampleApp : AppState := (addEntity initApp "a" 200 1000).1

/-- The app state reached by adding two entities that both carry id `"a"`. -/
def dupApp : AppState :=
  (addEntity (addEntity initApp "a" 200 1000).1 "a" 200 1000).1

/-- An empty-collection navigator state whose stored column count is the stale
prior value 7. -/
def staleColsInput : InputState := ⟨-1, [], 7, true⟩

/-- A navigator state holding one item whose measured element width is 0
(not yet laid out). -/
def zeroWidthInput : InputState := ⟨0, [⟨"z", 0⟩], 5, true⟩

/-! ## Basic lemmas about the embedded operations -/

lemma focus_fst_focusedIndex (s : InputState) (i : Int) :
    (focus s i).1.focusedIndex = min (max i 0) ((s.items.length : Int) - 1) := by
  simp only [focus]
  split_ifs <;> simp_all <;> omega

lemma focus_fst_items (s : InputState) (i : Int) :
    (focus s i).1.items = s.items := by
  simp only [focus]
  split_ifs <;> rfl

lemma focus_fst_active (s : InputState) (i : Int) :
    (focus s i).1.active = s.active := by
  simp only [focus]
  split_ifs <;> rfl

lemma focus_snd (s : InputState) (i : Int) :
    (focus s i).2 =
      if s.items = [] then []
      else [min (max i 0) ((s.items.length : Int) - 1)] := by
  simp only [focus]
  rcases h : s.items with _ | ⟨e, rest⟩ <;> simp [h] at * <;> split_ifs <;>
    simp_all <;> omega

lemma calcMetrics_items (s : InputState) (w : Int) :
    (calcMetrics s w).items = s.items := by
  rcases h : s.items with _ | ⟨e, rest⟩ <;> simp [calcMetrics, h]

lemma calcMetrics_focusedIndex (s : InputState) (w : Int) :
    (calcMetrics s w).focusedIndex = s.focusedIndex := by
  rcases h : s.items with _ | ⟨e, rest⟩ <;> simp [calcMetrics, h]

lemma calcMetrics_active (s : InputState) (w : Int) :
    (calcMetrics s w).active = s.active := by
  rcases h : s.items with _ | ⟨e, rest⟩ <;> simp [calcMetrics, h]

lemma calcMetrics_empty (s : InputState) (w : Int) (h : s.items = []) :
    calcMetrics s w = s := by
  simp [calcMetrics, h]

lemma registerItems_fst_items (s : InputState) (items : List Entity) (w : Int) :
    (registerItems s items w).1.items = items := by
  rcases items with _ | ⟨e, rest⟩ <;>
    simp [registerItems, calcMetrics_items, focus_fst_items]

lemma registerItems_fst_focusedIndex (s : InputState) (items : List Entity) (w : Int) :
    (registerItems s items w).1.focusedIndex = if items = [] then -1 else 0 := by
  rcases items with _ | ⟨e, rest⟩
  · simp [registerItems, calcMetrics_items]
  · simp [registerItems, calcMetrics_items, focus_fst_focusedIndex]

lemma registerItems_snd (s : InputState) (items : List Entity) (w : Int) :
    (registerItems s items w).2 = if items = [] then [] else [0] := by
  rcases items with _ | ⟨e, rest⟩
  · simp [registerItems, calcMetrics_items]
  · simp [registerItems, calcMetrics_items, focus_snd]

lemma registerItems_fst_active (s : InputState) (items : List Entity) (w : Int) :
    (registerItems s items w).1.active = s.active := by
  rcases items with _ | ⟨e, rest⟩ <;>
    simp [registerItems, calcMetrics_items, calcMetrics_active, focus_fst_active]

lemma handleKey_fst_items (s : InputState) (k : Key) (w : Int) :
    (handleKey s k w).1.items = s.items := by
  by_cases ha : s.active = true <;> cases k <;>
    simp [handleKey, ha, focus_fst_items, calcMetrics_items]

lemma focus_empty_noop (t : InputState) (x : Int) (hti : t.items = [])
    (htf : t.focusedIndex = -1) : focus t x = (t, []) := by
  cases t with
  | mk fi items cols active =>
    simp only at hti htf
    subst hti htf
    simp only [focus, List.length_nil, Nat.cast_zero]
    split_ifs <;> simp_all

lemma handleKey_empty_noop (t : InputState) (k : Key) (w : Int)
    (hti : t.items = []) (htf : t.focusedIndex = -1) :
    handleKey t k w = (t, []) := by
  have hcm : calcMetrics t w = t := calcMetrics_empty t w hti
  by_cases ha : t.active = true <;> cases k <;>
    simp [handleKey, ha, hcm, focus_empty_noop t _ hti htf]

lemma NavInvariant_focus_fst (s : InputState) (x : Int) :
    NavInvariant (focus s x).1 := by
  constructor
  · rw [focus_fst_focusedIndex, focus_fst_items]
    rcases h : s.items with _ | ⟨e, rest⟩ <;> simp [h] <;> omega
  · rw [focus_fst_items]
    intro hne
    rw [focus_fst_focusedIndex]
    have : 1 ≤ s.items.length := by
      rcases h : s.items with _ | ⟨e, rest⟩
      · exact absurd h hne
      · simp [h]
    omega

lemma NavInvariant_calcMetrics (s : InputState) (w : Int)
    (h : NavInvariant s) : NavInvariant (calcMetrics s w) := by
  unfold NavInvariant at h ⊢
  rw [calcMetrics_focusedIndex, calcMetrics_items]
  exact h

lemma NavInvariant_registerItems (s : InputState) (items : List Entity)
    (w : Int) : NavInvariant (registerItems s items w).1 := by
  constructor
  · rw [registerItems_fst_focusedIndex, registerItems_fst_items]
    rcases h : items with _ | ⟨e, rest⟩ <;> simp [h]
  · rw [registerItems_fst_items]
    intro hne
    rw [registerItems_fst_focusedIndex, if_neg hne]
    have : 1 ≤ items.length := by
      rcases h : items with _ | ⟨e, rest⟩
      · exact absurd h hne
      · simp [h]
    omega

lemma NavInvariant_handleKey (s : InputState) (k : Key) (w : Int)
    (h : NavInvariant s) : NavInvariant (handleKey s k w).1 := by
  by_cases ha : s.active = true
  · cases k <;> simp only [handleKey, ha, if_pos] <;>
      first
        | exact NavInvariant_focus_fst _ _
        | exact NavInvariant_calcMetrics s w h
  · simp only [handleKey, ha]
    simpa using h

/-! ## The claims -/

/-- C1: for a non-empty collection and a valid focused index `i`, a directional
move by `delta` sets the focused index to `clamp(i + delta, 0, n - 1)`: it
never wraps past either grid edge (and `focus` is a total function, so no error
is ever raised at a boundary); `move(+1)` at the last index leaves the index
unchanged (idempotent clamp); any move whose target is negative — in particular
`move(-cols)` from an index `i < cols`, since `cols ≥ 1` — yields index `0`;
and on an empty collection (focusedIndex `-1`) a key-press move is a complete
no-op. -/
theorem C1_move_clamps (s : InputState) (delta : Int)
    (hne : s.items ≠ []) (h0 : 0 ≤ s.focusedIndex)
    (hlt : s.focusedIndex < (s.items.length : Int)) :
    ((focus s (s.focusedIndex + delta)).1.focusedIndex
        = max 0 (min (s.focusedIndex + delta) ((s.items.length : Int) - 1))) ∧
    (s.focusedIndex = (s.items.length : Int) - 1 →
      (focus s (s.focusedIndex + 1)).1.focusedIndex = s.focusedIndex) ∧
    (s.focusedIndex + delta < 0 →
      (focus s (s.focusedIndex + delta)).1.focusedIndex = 0) ∧
    (∀ (t : InputState) (k : Key) (w : Int), t.items = [] →
      t.focusedIndex = -1 → handleKey t k w = (t, [])) := by
  have hlen : 1 ≤ s.items.length := by
    rcases h : s.items with _ | ⟨e, rest⟩
    · exact absurd h hne
    · simp [h]
  refine ⟨?_, ?_, ?_, ?_⟩
  · rw [focus_fst_focusedIndex]; omega
  · intro h; rw [focus_fst_focusedIndex]; omega
  · intro h; rw [focus_fst_focusedIndex]; omega
  · intro t k w hti htf; exact handleKey_empty_noop t k w hti htf

/-- Witness for C1: from `sampleFocused` (index 1 of 3 items), a move by `+5`
clamps to the last index. -/
theorem C1_move_clamps_witness :
    (focus sampleFocused (sampleFocused.focusedIndex + 5)).1.focusedIndex
      = max 0 (min (sampleFocused.focusedIndex + 5)
          ((sampleFocused.items.length : Int) - 1)) :=
  (C1_move_clamps sampleFocused 5 (by decide) (by decide) (by decide)).1

/-- C2: registering a collection always resets focus regardless of the prior
navigator state: length 0 yields the Empty state (focusedIndex `-1`) and any
length n > 0 yields Focused(0); the registered list becomes the collection. -/
theorem C2_register_resets (s : InputState) (items : List Entity) (w : Int) :
    ((registerItems s items w).1.focusedIndex
        = if items = [] then -1 else 0) ∧
    (registerItems s items w).1.items = items :=
  ⟨registerItems_fst_focusedIndex s items w, registerItems_fst_items s items w⟩

/-- C3: every operation of the system — `addEntity`, `clear`, a direct
`registerItems`, and any key press — leaves the navigator state satisfying the
invariant: `focusedIndex = -1` (none) exactly when the collection is empty, and
otherwise `0 ≤ focusedIndex < length`; the constructor state satisfies it too,
so no reachable state has a stale focus index. -/
theorem C3_invariant :
    AppInvariant initApp ∧
    (∀ (s : InputState) (items : List Entity) (w : Int),
      NavInvariant (registerItems s items w).1) ∧
    (∀ (a : AppState) (newId : String) (elemW w : Int),
      AppInvariant (addEntity a newId elemW w).1) ∧
    (∀ (a : AppState) (w : Int), AppInvariant (clear a w).1) ∧
    (∀ (a : AppState) (k : Key) (w : Int), AppInvariant a →
      AppInvariant (appKey a k w).1) := by
  refine ⟨by decide, NavInvariant_registerItems, ?_, ?_, ?_⟩
  · intro a newId elemW w
    exact ⟨NavInvariant_registerItems _ _ _, registerItems_fst_items _ _ _⟩
  · intro a w
    exact ⟨NavInvariant_registerItems _ _ _, registerItems_fst_items _ _ _⟩
  · intro a k w h
    exact ⟨NavInvariant_handleKey _ _ _ h.1, (handleKey_fst_items _ _ _).trans h.2⟩

/-- Witness for C3: the invariant holds after an `addEntity` and is preserved
by a key press on a concrete reachable state. -/
theorem C3_invariant_witness :
    AppInvariant sampleApp ∧ AppInvariant (appKey sampleApp Key.arrowRight 1000).1 :=
  ⟨by decide, C3_invariant.2.2.2.2 sampleApp Key.arrowRight 1000 (by decide)⟩

/-- C4 counterexample: with the empty collection (the `InputSystem`
constructor state, which is active), an ArrowRight key press is a move call —
`handleKey` reaches `focus` — yet it fires zero focus-changed events, refuting
"every move call fires exactly one focus-changed event". -/
theorem C4_counterexample :
    initInput.active = true ∧
    (handleKey initInput Key.arrowRight 1000).2 = [] ∧
    (handleKey initInput Key.arrowRight 1000).2.length ≠ 1 := by
  refine ⟨by decide, by decide, by decide⟩

/-- C4 (amended): every `registerItems` call with a non-empty collection fires
exactly one focus-changed event (the visual focus update and scroll-follow on
the newly focused element), and every arrow-key move with the input active and
a non-empty collection fires exactly one such event — even when the focused
index does not change, since the count below is independent of the prior
index — while a move on an empty collection fires none.  The code applies the
update directly to the element at the new index; no separate
`onFocusChange(previousIndex, newIndex)` callback exists in the code. -/
theorem C4_events :
    (∀ (s : InputState) (items : List Entity) (w : Int), items ≠ [] →
      (registerItems s items w).2.length = 1) ∧
    (∀ (s : InputState) (k : Key) (w : Int), s.active = true →
      k.isArrow = true →
      ((s.items ≠ [] → (handleKey s k w).2.length = 1) ∧
       (s.items = [] → (handleKey s k w).2.length = 0))) := by
  constructor
  · intro s items w hne
    rw [registerItems_snd, if_neg hne]
    rfl
  · intro s k w ha hk
    have hsnd : ∀ x : Int, (focus (calcMetrics s w) x).2 =
        if s.items = [] then []
        else [min (max x 0) ((s.items.length : Int) - 1)] := by
      intro x
      rw [focus_snd, calcMetrics_items]
    constructor
    · intro hne
      cases k <;> simp_all [handleKey, Key.isArrow, hsnd]
    · intro hemp
      cases k <;> simp_all [handleKey, Key.isArrow, hsnd]

/-- Witness for C4 (amended): a register of one item fires one event, and an
ArrowRight press at index 1 of three items fires one event. -/
theorem C4_events_witness :
    (registerItems initInput [entA] 1000).2.length = 1 ∧
    (handleKey sampleFocused Key.arrowRight 1000).2.length = 1 :=
  ⟨C4_events.1 initInput [entA] 1000 (by decide),
   (C4_events.2 sampleFocused Key.arrowRight 1000 (by decide) (by decide)).1
     (by decide)⟩

/-- C5: for positive container and item widths the recomputed column count
equals the floor of `containerW / (itemW + gap)` — truncated, never rounded —
clamped to a minimum of 1, and is therefore never less than 1.  In the code
the gap is the fixed constant 16 (`// 16 = gap`); `recomputeSpec` states the
spec contract with the gap as an argument, and the final conjunct checks the
code against it at the code's gap constant. -/
theorem C5_columns (w itemW gap : Int) (hw : 0 < w) (hi : 0 < itemW)
    (hg : 0 ≤ gap) :
    calcCols w itemW = max 1 (Int.fdiv w (itemW + 16)) ∧
    1 ≤ calcCols w itemW ∧
    recomputeSpec w itemW gap = max 1 (Int.fdiv w (itemW + gap)) ∧
    1 ≤ recomputeSpec w itemW gap ∧
    calcCols w itemW = recomputeSpec w itemW 16 := by
  unfold calcCols recomputeSpec
  split_ifs <;> simp_all <;> omega

/-- Witness for C5 at the spec scenario: container 1000px, item 200px,
gap 16px gives `floor(1000/216) = 4` columns. -/
theorem C5_columns_witness :
    calcCols 1000 200 = max 1 (Int.fdiv 1000 (200 + 16)) ∧
    calcCols 1000 200 = 4 :=
  ⟨(C5_columns 1000 200 16 (by decide) (by decide) (by decide)).1, by decide⟩

/-- C6: whenever the sample item width is zero or negative (the exact-integer
representatives of the degenerate measurements; a width that is `NaN`,
infinite, or unavailable has no such representative), any non-negative
container width and gap give a column count of exactly 1 — for the pure
computation `calcCols`, for the spec contract `recomputeSpec`, and for the
state-level `calcMetrics` whose first item has that width. -/
theorem C6_degenerate_width (s : InputState) (e : Entity) (rest : List Entity)
    (w gap : Int) (hw : 0 ≤ w) (hg : 0 ≤ gap) (hi : e.elemWidth ≤ 0)
    (hs : s.items = e :: rest) :
    calcCols w e.elemWidth = 1 ∧
    recomputeSpec w e.elemWidth gap = 1 ∧
    (calcMetrics s w).cols = 1 := by
  have h1 : calcCols w e.elemWidth = 1 := by
    unfold calcCols
    rw [if_pos (Or.inr hi)]
  refine ⟨h1, ?_, ?_⟩
  · unfold recomputeSpec
    rw [if_pos hi]
  · simp [calcMetrics, hs, h1]

/-- Witness for C6: a one-item collection whose item measures 0px wide gets
exactly 1 column at container width 500 and gap 0. -/
theorem C6_degenerate_width_witness :
    (calcMetrics zeroWidthInput 500).cols = 1 :=
  (C6_degenerate_width zeroWidthInput ⟨"z", 0⟩ [] 500 0 (by decide) (by decide)
    (by decide) (by decide)).2.2

/-- C7 counterexample: adding a second entity with the already-present id
`"a"` does not fail — neither `TileForgeApp.addEntity` nor the `GameObject`
constructor contains any duplicate-id check or any `DuplicateIdError`, and the
embedded `addEntity` is a total function — and the resulting collection holds
the id `"a"` twice, refuting "ids in the collection are never duplicated". -/
theorem C7_counterexample :
    dupApp.entities.map Entity.id = ["a", "a"] ∧
    ¬ (dupApp.entities.map Entity.id).Nodup := by
  refine ⟨by decide, by decide⟩

/-- C7 (amended): `addEntity` performs no duplicate-id check: even when an
entity with the given id is already present (and nothing was cleared), the
call succeeds, appends the new entity at the end, and returns it, so the
collection can contain duplicate ids. -/
theorem C7_duplicate_id_accepted (a : AppState) (newId : String)
    (elemW w : Int) (hdup : ∃ e ∈ a.entities, e.id = newId) :
    (addEntity a newId elemW w).1.entities.map Entity.id
        = a.entities.map Entity.id ++ [newId] ∧
    (addEntity a newId elemW w).2.1.id = newId := by
  unfold addEntity
  simp

/-- Witness for C7 (amended): adding id `"a"` to the app that already holds an
entity with id `"a"` succeeds and appends. -/
theorem C7_duplicate_id_accepted_witness :
    (addEntity sampleApp "a" 200 1000).1.entities.map Entity.id
      = sampleApp.entities.map Entity.id ++ ["a"] :=
  (C7_duplicate_id_accepted sampleApp "a" 200 1000 (by decide)).1

/-- C8: evaluation at the failing input.  Starting from the app holding one
entity (id `"a"`), the effective `clear` — the later of the two duplicate
`clear` definitions in the `TileForgeApp` class body, which under JavaScript
method-shadowing is the one that runs — invokes `destroy()` on no entity,
whereas the earlier, shadowed definition (whose comment documents the cleanup
intent the claim describes) would invoke it on every entity; both versions do
empty the collection and move the navigator to the Empty state. -/
theorem C8_clear_skips_destroy :
    (clear sampleApp 1000).2.1 = [] ∧
    (clearShadowed sampleApp 1000).2.1 = ["a"] ∧
    (clear sampleApp 1000).1.entities = [] ∧
    (clear sampleApp 1000).1.input.items = [] ∧
    (clear sampleApp 1000).1.input.focusedIndex = -1 := by
  refine ⟨by decide, by decide, by decide, by decide, by decide⟩

/-- C9: recomputing grid metrics on an empty collection is a complete no-op —
the early return fires, so the whole state, in particular the stored column
count, keeps whatever value it had, and no error is raised (`calcMetrics` is a
total function). -/
theorem C9_empty_metrics_noop (s : InputState) (w : Int) (h : s.items = []) :
    calcMetrics s w = s :=
  calcMetrics_empty s w h

/-- Witness for C9: with an empty collection and a stale stored column count
of 7, a recomputation at container width 12345 changes nothing. -/
theorem C9_empty_metrics_noop_witness :
    calcMetrics staleColsInput 12345 = staleColsInput :=
  C9_empty_metrics_noop staleColsInput 12345 (by decide)

/-- C10: `addEntity` appends the new entity at the end: the collection becomes
the old collection plus the new entity, every previously present entity stays
at its index in the same order, the new entity sits at index `n`, and the
returned handle is the newly constructed entity. -/
theorem C10_addEntity_appends (a : AppState) (newId : String) (elemW w : Int) :
    (addEntity a newId elemW w).1.entities = a.entities ++ [⟨newId, elemW⟩] ∧
    (addEntity a newId elemW w).2.1 = (⟨newId, elemW⟩ : Entity) ∧
    (∀ j : Nat, j < a.entities.length →
      (addEntity a newId elemW w).1.entities.get? j = a.entities.get? j) ∧
    (addEntity a newId elemW w).1.entities.get? a.entities.length
      = some ⟨newId, elemW⟩ := by
  refine ⟨rfl, rfl, ?_, ?_⟩
  · intro j hj
    show (a.entities ++ [(⟨newId, elemW⟩ : Entity)]).get? j = a.entities.get? j
    exact List.get?_append hj
  · show (a.entities ++ [(⟨newId, elemW⟩ : Entity)]).get? a.entities.length
      = some ⟨newId, elemW⟩
    exact List.get?_concat_length a.entities ⟨newId, elemW⟩

/-- Witness for C10: adding `"b"` to the one-entity app keeps the entity at
index 0 unchanged. -/
theorem C10_addEntity_appends_witness :
    (addEntity sampleApp "b" 200 1000).1.entities.get? 0
      = sampleApp.entities.get? 0 :=
  (C10_addEntity_appends sampleApp "b" 200 1000).2.2.1 0 (by decide)

end TileForge
